import Mathlib

/-!
Shallow embedding of the wpilib_sys status-code translation and
handle-lifecycle layer (src/src/error.rs and the peripheral modules under
src/src/hal/).  Machine integers (i32) are modelled as Int; where the source
casts between i32 and u32 the cast is the identity on the values that can
actually occur and is noted at the definition.
-/

namespace WpilibSys

/-- `FfiError` from src/src/error.rs lines 34-61: an error as emitted by the
native library, one variant per recognised status code plus a catch-all
`Unknown` carrying the raw code. -/
inductive FfiError where
  | SampleRateTooHigh
  | VoltageOutOfRange
  | LoopTimingError
  | SpiWriteNoMosi
  | SpiReadNoMiso
  | SpiReadNoData
  | IncompatibleState
  | NoAvailableResources
  | NullParameter
  | AnalogTriggerLimitOrderError
  | AnalogTriggerPuseOutputError
  | ParameterOutOfRange
  | ResourceIsAllocated
  | ResourceOutOfRange
  | InvalidAccumulatorChannel
  | CounterNotSupported
  | PwmScaleError
  | HandleError
  | SerialPortNotFound
  | SerialPortNotOpen
  | SerialPortError
  | ThreadPriorityError
  | ThreadPriorityRangeError
  | Unknown (code : Int)
  deriving DecidableEq, Repr

/-- `HalError` from src/src/error.rs lines 114-131.  `NullError` carries the
byte position of the interior nul of the offending string (the payload of
`std::ffi::NulError`); `Other` carries the boxed error's message. -/
inductive HalError where
  | Hal (e : FfiError)
  | NullError (nulPosition : Nat)
  | ResourceAlreadyInitialized
  | HalNotInitialized
  | BadModuleType
  | BadChannelType
  | WrongIoInterface
  | Other (msg : String)
  deriving DecidableEq, Repr

/-- `HalResult<T>` from src/src/error.rs line 7. -/
abbrev HalResult (α : Type) := Except HalError α

/-!
Status-code constants referenced by `impl From<i32> for HalError`
(src/src/error.rs lines 156-196).  Modelled from the spec: the `raw` module
that defines these constants is code of this repository that is not under
src/; per the spec (section 3 and 4.1) the recognised codes split into a
non-negative group (the positive-code table, declared as u32 in the source)
and a negative group (the negative-code table, declared as i32).  The
concrete numeric values below are the vendor numbering as far as it is
documented; every claim settled against them depends only on the signs and
pairwise distinctness of the constants, not on the exact numerals.
-/

def SAMPLE_RATE_TOO_HIGH : Int := 1001
def VOLTAGE_OUT_OF_RANGE : Int := 1002
def LOOP_TIMING_ERROR : Int := 1004
def SPI_WRITE_NO_MOSI : Int := 1012
def SPI_READ_NO_MISO : Int := 1013
def SPI_READ_NO_DATA : Int := 1014
def INCOMPATIBLE_STATE : Int := 1015
def NO_AVAILABLE_RESOURCES : Int := -1004
def NULL_PARAMETER : Int := -1005
def ANALOG_TRIGGER_LIMIT_ORDER_ERROR : Int := -1010
def ANALOG_TRIGGER_PULSE_OUTPUT_ERROR : Int := -1011
def PARAMETER_OUT_OF_RANGE : Int := -1028
def RESOURCE_IS_ALLOCATED : Int := -1029
def RESOURCE_OUT_OF_RANGE : Int := -1030
def HAL_INVALID_ACCUMULATOR_CHANNEL : Int := -1035
def HAL_COUNTER_NOT_SUPPORTED : Int := -1058
def HAL_PWM_SCALE_ERROR : Int := -1072
def HAL_HANDLE_ERROR : Int := -1098
def HAL_SERIAL_PORT_NOT_FOUND : Int := -1123
def HAL_SERIAL_PORT_OPEN_ERROR : Int := -1124
def HAL_SERIAL_PORT_ERROR : Int := -1125
def HAL_THREAD_PRIORITY_ERROR : Int := -1152
def HAL_THREAD_PRIORITY_RANGE_ERROR : Int := -1153

/-- `impl From<i32> for HalError` (src/src/error.rs lines 156-196).  The
source first branches on `code >= 0`; in the non-negative branch it matches
`code as u32` against the u32 constants and wraps the fallthrough key back
with `k as i32`.  For an i32 code with `0 <= code < 2^31` both casts are the
identity on the numeric value, so the branch is embedded directly on the
integer.  The negative branch matches `code` against the i32 constants.
Every path wraps the resulting `FfiError` in `HalError::Hal`. -/
def halErrorFromI32 (code : Int) : HalError :=
  HalError.Hal (
    if 0 ≤ code then
      if code = SAMPLE_RATE_TOO_HIGH then FfiError.SampleRateTooHigh
      else if code = VOLTAGE_OUT_OF_RANGE then FfiError.VoltageOutOfRange
      else if code = LOOP_TIMING_ERROR then FfiError.LoopTimingError
      else if code = SPI_WRITE_NO_MOSI then FfiError.SpiWriteNoMosi
      else if code = SPI_READ_NO_MISO then FfiError.SpiReadNoMiso
      else if code = SPI_READ_NO_DATA then FfiError.SpiReadNoData
      else if code = INCOMPATIBLE_STATE then FfiError.IncompatibleState
      else FfiError.Unknown code
    else
      if code = NO_AVAILABLE_RESOURCES then FfiError.NoAvailableResources
      else if code = NULL_PARAMETER then FfiError.NullParameter
      else if code = ANALOG_TRIGGER_LIMIT_ORDER_ERROR then FfiError.AnalogTriggerLimitOrderError
      else if code = ANALOG_TRIGGER_PULSE_OUTPUT_ERROR then FfiError.AnalogTriggerPuseOutputError
      else if code = PARAMETER_OUT_OF_RANGE then FfiError.ParameterOutOfRange
      else if code = RESOURCE_IS_ALLOCATED then FfiError.ResourceIsAllocated
      else if code = RESOURCE_OUT_OF_RANGE then FfiError.ResourceOutOfRange
      else if code = HAL_INVALID_ACCUMULATOR_CHANNEL then FfiError.InvalidAccumulatorChannel
      else if code = HAL_COUNTER_NOT_SUPPORTED then FfiError.CounterNotSupported
      else if code = HAL_PWM_SCALE_ERROR then FfiError.PwmScaleError
      else if code = HAL_HANDLE_ERROR then FfiError.HandleError
      else if code = HAL_SERIAL_PORT_NOT_FOUND then FfiError.SerialPortNotFound
      else if code = HAL_SERIAL_PORT_OPEN_ERROR then FfiError.SerialPortNotOpen
      else if code = HAL_SERIAL_PORT_ERROR then FfiError.SerialPortError
      else if code = HAL_THREAD_PRIORITY_ERROR then FfiError.ThreadPriorityError
      else if code = HAL_THREAD_PRIORITY_RANGE_ERROR then FfiError.ThreadPriorityRangeError
      else FfiError.Unknown code)

/-- The positive-code table of src/src/error.rs lines 162-172, as a keyed
association list (spec section 4.1 calls this the "positive-code" lookup
table). -/
def positiveTable : List (Int × FfiError) :=
  [(SAMPLE_RATE_TOO_HIGH, FfiError.SampleRateTooHigh),
   (VOLTAGE_OUT_OF_RANGE, FfiError.VoltageOutOfRange),
   (LOOP_TIMING_ERROR, FfiError.LoopTimingError),
   (SPI_WRITE_NO_MOSI, FfiError.SpiWriteNoMosi),
   (SPI_READ_NO_MISO, FfiError.SpiReadNoMiso),
   (SPI_READ_NO_DATA, FfiError.SpiReadNoData),
   (INCOMPATIBLE_STATE, FfiError.IncompatibleState)]

/-- The negative-code table of src/src/error.rs lines 174-193 (spec section
4.1 calls this the "negative-code" lookup table). -/
def negativeTable : List (Int × FfiError) :=
  [(NO_AVAILABLE_RESOURCES, FfiError.NoAvailableResources),
   (NULL_PARAMETER, FfiError.NullParameter),
   (ANALOG_TRIGGER_LIMIT_ORDER_ERROR, FfiError.AnalogTriggerLimitOrderError),
   (ANALOG_TRIGGER_PULSE_OUTPUT_ERROR, FfiError.AnalogTriggerPuseOutputError),
   (PARAMETER_OUT_OF_RANGE, FfiError.ParameterOutOfRange),
   (RESOURCE_IS_ALLOCATED, FfiError.ResourceIsAllocated),
   (RESOURCE_OUT_OF_RANGE, FfiError.ResourceOutOfRange),
   (HAL_INVALID_ACCUMULATOR_CHANNEL, FfiError.InvalidAccumulatorChannel),
   (HAL_COUNTER_NOT_SUPPORTED, FfiError.CounterNotSupported),
   (HAL_PWM_SCALE_ERROR, FfiError.PwmScaleError),
   (HAL_HANDLE_ERROR, FfiError.HandleError),
   (HAL_SERIAL_PORT_NOT_FOUND, FfiError.SerialPortNotFound),
   (HAL_SERIAL_PORT_OPEN_ERROR, FfiError.SerialPortNotOpen),
   (HAL_SERIAL_PORT_ERROR, FfiError.SerialPortError),
   (HAL_THREAD_PRIORITY_ERROR, FfiError.ThreadPriorityError),
   (HAL_THREAD_PRIORITY_RANGE_ERROR, FfiError.ThreadPriorityRangeError)]

/-- First-match lookup in a keyed table, defaulting to `Unknown code` for a
key absent from the table; this is the lookup discipline a `match` chain on
constant patterns implements. -/
def tableLookup : List (Int × FfiError) → Int → FfiError
  | [], code => FfiError.Unknown code
  | (k, e) :: rest, code => if code = k then e else tableLookup rest code

/-!
The `hal_call!` macro of src/src/error.rs lines 11-29 has two arms.  The
`ptr` arm checks the process-wide flag `hal::hal_is_initialized()`, creates
`let mut status = 0`, calls the native function with `&mut status` appended
to the arguments, and succeeds with the native return value iff `status` is
still `0` afterwards.  The `ret` arm checks the flag, calls the native
function, and treats the native function's own return value as the status.

The process-wide flag is ambient global state read by every call path; it is
threaded to each embedded operation as the explicit parameter `inited`.  The
native function of a `ptr` call is embedded as a function from the initial
value of the status slot to the pair (native return value, final value of
the status slot); a `ret` call's native function is embedded by the status
it returns.  Each embedding also yields the number of times the native
function was invoked, so that "the native function is never invoked" is a
statement about the embedding.
-/

/-- The `ptr` arm of `hal_call!` (src/src/error.rs lines 12-20). -/
def halCallPtr {α : Type} (inited : Bool) (native : Int → α × Int) :
    HalResult α × Nat :=
  if inited then
    let r := native 0
    (if r.2 = 0 then Except.ok r.1 else Except.error (halErrorFromI32 r.2), 1)
  else
    (Except.error HalError.HalNotInitialized, 0)

/-- The `ret` arm of `hal_call!` (src/src/error.rs lines 21-28): the native
function receives no status slot; `status` is the value it returns. -/
def halCallRet (inited : Bool) (status : Int) : HalResult Unit × Nat :=
  if inited then
    (if status = 0 then Except.ok () else Except.error (halErrorFromI32 status), 1)
  else
    (Except.error HalError.HalNotInitialized, 0)

/-- Modelled from the spec: claim reading of the no-value call shape in
section 4.3, in which the native function of the no-value shape also
receives a zero-initialized status slot by reference, returns no value, and
the call succeeds iff the slot is still zero on return.  This definition
follows the spec's words and is compared against `halCallRet`, which is the
embedding of the source's `ret` arm. -/
def halCallNoValSlotSpec (inited : Bool) (native : Int → Unit × Int) :
    HalResult Unit × Nat :=
  if inited then
    let r := native 0
    (if r.2 = 0 then Except.ok () else Except.error (halErrorFromI32 r.2), 1)
  else
    (Except.error HalError.HalNotInitialized, 0)

/-- Vendor diagnostic strings referenced by `impl fmt::Display for FfiError`
(src/src/error.rs lines 70-103).  The string constants live in the `raw`
module, which is not under src/; each field holds the decoded text of the
corresponding `*_MESSAGE` byte array (the source's `arr_to_str!` strips the
trailing nul byte and decodes utf-8).  Note there is no field for the two
thread-priority variants: the source supplies literal text for them. -/
structure VendorMessages where
  sampleRateTooHigh : String
  voltageOutOfRange : String
  loopTimingError : String
  spiWriteNoMosi : String
  spiReadNoMiso : String
  spiReadNoData : String
  incompatibleState : String
  noAvailableResources : String
  nullParameter : String
  analogTriggerLimitOrderError : String
  analogTriggerPulseOutputError : String
  parameterOutOfRange : String
  resourceIsAllocated : String
  resourceOutOfRange : String
  invalidAccumulatorChannel : String
  counterNotSupported : String
  pwmScaleError : String
  handleError : String
  serialPortNotFound : String
  serialPortNotOpen : String
  serialPortError : String

/-- The message produced by `impl fmt::Display for FfiError`
(src/src/error.rs lines 70-103), parameterized by the vendor strings of the
`raw` module.  The two thread-priority variants use the literal placeholder
text of lines 94-95; `Unknown` embeds the raw code (line 98). -/
def FfiError.displayMessage (m : VendorMessages) : FfiError → String
  | FfiError.SampleRateTooHigh => m.sampleRateTooHigh
  | FfiError.VoltageOutOfRange => m.voltageOutOfRange
  | FfiError.LoopTimingError => m.loopTimingError
  | FfiError.SpiWriteNoMosi => m.spiWriteNoMosi
  | FfiError.SpiReadNoMiso => m.spiReadNoMiso
  | FfiError.SpiReadNoData => m.spiReadNoData
  | FfiError.IncompatibleState => m.incompatibleState
  | FfiError.NoAvailableResources => m.noAvailableResources
  | FfiError.NullParameter => m.nullParameter
  | FfiError.AnalogTriggerLimitOrderError => m.analogTriggerLimitOrderError
  | FfiError.AnalogTriggerPuseOutputError => m.analogTriggerPulseOutputError
  | FfiError.ParameterOutOfRange => m.parameterOutOfRange
  | FfiError.ResourceIsAllocated => m.resourceIsAllocated
  | FfiError.ResourceOutOfRange => m.resourceOutOfRange
  | FfiError.InvalidAccumulatorChannel => m.invalidAccumulatorChannel
  | FfiError.CounterNotSupported => m.counterNotSupported
  | FfiError.PwmScaleError => m.pwmScaleError
  | FfiError.HandleError => m.handleError
  | FfiError.SerialPortNotFound => m.serialPortNotFound
  | FfiError.SerialPortNotOpen => m.serialPortNotOpen
  | FfiError.SerialPortError => m.serialPortError
  | FfiError.ThreadPriorityError => "\x7bThreadPriorityError\x7d"
  | FfiError.ThreadPriorityRangeError => "\x7bThreadPriorityRangeError\x7d"
  | FfiError.Unknown e => "Unknown error: " ++ toString e

/-- Rust `b as HAL_Bool` (`HAL_Bool` is the native small-integer boolean):
`true as i32 = 1`, `false as i32 = 0`. -/
def boolToNative (b : Bool) : Int := if b then 1 else 0

/-- Modelled from the spec: the handle newtypes live in the `raw` module,
which is not under src/ (src/src/hal/handle.rs lines 3-16 only re-exports
them as type aliases); per the spec (section 4.4) each is a thin nominal
wrapper over the same underlying integer, read back with `get_handle()`
(src/src/hal/relay.rs line 11). -/
structure RelayHandle where
  getHandle : Int
  deriving DecidableEq, Repr

/-- Modelled from the spec: see `RelayHandle`.  src/src/hal/counter.rs
passes counter handles to the native functions without unwrapping, so the
embedding keeps them opaque in the native-function parameters there. -/
structure CounterHandle where
  getHandle : Int
  deriving DecidableEq, Repr

/-- Modelled from the spec: see `RelayHandle`. -/
structure NotifierHandle where
  getHandle : Int
  deriving DecidableEq, Repr

/-!
Peripheral operations.  Each is embedded with the ambient initialization
flag as the explicit parameter `inited` and with the native function as a
parameter; native-function arguments that the wrapper merely passes through
unchanged (handles, channel numbers, sizes) are absorbed into that
parameter, while the arguments the wrapper itself transforms (booleans via
`as HAL_Bool`, handles via `.get_handle()`) are kept explicit so the
transformation is part of the embedding.
-/

namespace Relay

/-- `hal_initialize_relay_port` (src/src/hal/relay.rs lines 5-8):
`hal_call![ptr HAL_InitializeRelayPort(port_handle.get_handle(), fwd as
HAL_Bool)].map(|n| RelayHandle(n))`. -/
def halInitializeRelayPort (inited : Bool) (native : Int → Int → Int → Int × Int)
    (portHandle : Int) (fwd : Bool) : HalResult RelayHandle × Nat :=
  let c := halCallPtr inited (native portHandle (boolToNative fwd))
  (c.1.map (fun n => RelayHandle.mk n), c.2)

/-- `free_relay_port` (src/src/hal/relay.rs lines 10-12): calls
`HAL_FreeRelayPort(handle.get_handle())` directly, with no initialization
check and no status slot. -/
def freeRelayPort (inited : Bool) (native : Int → Unit) (handle : RelayHandle) :
    Unit × Nat :=
  (native handle.getHandle, 1)

/-- `check_relay_channel` (src/src/hal/relay.rs lines 14-16): calls
`HAL_CheckRelayChannel(channel)` directly and compares the returned native
boolean with 0; no initialization check, no status slot. -/
def checkRelayChannel (inited : Bool) (native : Int → Int) (channel : Int) :
    Bool × Nat :=
  (native channel != 0, 1)

/-- `set_relay` (src/src/hal/relay.rs lines 18-20):
`hal_call![ptr HAL_SetRelay(handle.get_handle(), on as HAL_Bool)]`. -/
def setRelay (inited : Bool) (native : Int → Int → Int → Unit × Int)
    (handle : RelayHandle) (onValue : Bool) : HalResult Unit × Nat :=
  halCallPtr inited (native handle.getHandle (boolToNative onValue))

/-- `get_relay` (src/src/hal/relay.rs lines 22-24):
`hal_call![ptr HAL_GetRelay(handle.get_handle())].map(|n| n != 0)`. -/
def getRelay (inited : Bool) (native : Int → Int → Int × Int)
    (handle : RelayHandle) : HalResult Bool × Nat :=
  let c := halCallPtr inited (native handle.getHandle)
  (c.1.map (fun n => n != 0), c.2)

end Relay

namespace Counter

/-- `CounterMode` (src/src/hal/counter.rs lines 8-14). -/
inductive CounterMode where
  | TwoPulse
  | Semiperiod
  | PulseLength
  | ExternalDirection
  deriving DecidableEq, Repr

/-- `initialize` (src/src/hal/counter.rs lines 39-41):
`hal_call![ptr HAL_InitializeCounter(mode.into_raw(), index)]`; the `index`
out-parameter is absorbed into the native function. -/
def counterInitialize (inited : Bool) (native : CounterMode → Int → CounterHandle × Int)
    (mode : CounterMode) : HalResult CounterHandle × Nat :=
  halCallPtr inited (native mode)

/-- `free` (src/src/hal/counter.rs lines 43-45). -/
def freeCounter (inited : Bool) (native : Int → Unit × Int) : HalResult Unit × Nat :=
  halCallPtr inited native

/-- `set_average_size` (src/src/hal/counter.rs lines 47-49). -/
def setAverageSize (inited : Bool) (native : Int → Unit × Int) : HalResult Unit × Nat :=
  halCallPtr inited native

/-- `set_up_source` (src/src/hal/counter.rs lines 51-53). -/
def setUpSource (inited : Bool) (native : Int → Unit × Int) : HalResult Unit × Nat :=
  halCallPtr inited native

/-- `set_up_source_edge` (src/src/hal/counter.rs lines 55-57): both edge
flags cross the boundary as `as HAL_Bool`. -/
def setUpSourceEdge (inited : Bool) (native : Int → Int → Int → Unit × Int)
    (risingEdge fallingEdge : Bool) : HalResult Unit × Nat :=
  halCallPtr inited (native (boolToNative risingEdge) (boolToNative fallingEdge))

/-- `clear_up_source` (src/src/hal/counter.rs lines 59-61). -/
def clearUpSource (inited : Bool) (native : Int → Unit × Int) : HalResult Unit × Nat :=
  halCallPtr inited native

/-- `set_down_source` (src/src/hal/counter.rs lines 63-65). -/
def setDownSource (inited : Bool) (native : Int → Unit × Int) : HalResult Unit × Nat :=
  halCallPtr inited native

/-- `set_down_source_edge` (src/src/hal/counter.rs lines 67-69). -/
def setDownSourceEdge (inited : Bool) (native : Int → Int → Int → Unit × Int)
    (risingEdge fallingEdge : Bool) : HalResult Unit × Nat :=
  halCallPtr inited (native (boolToNative risingEdge) (boolToNative fallingEdge))

/-- `clear_down_source` (src/src/hal/counter.rs lines 71-73). -/
def clearDownSource (inited : Bool) (native : Int → Unit × Int) : HalResult Unit × Nat :=
  halCallPtr inited native

/-- `set_up_down_mode` (src/src/hal/counter.rs lines 75-77). -/
def setUpDownMode (inited : Bool) (native : Int → Unit × Int) : HalResult Unit × Nat :=
  halCallPtr inited native

/-- `set_external_direction_mode` (src/src/hal/counter.rs lines 79-81). -/
def setExternalDirectionMode (inited : Bool) (native : Int → Unit × Int) :
    HalResult Unit × Nat :=
  halCallPtr inited native

/-- `set_semi_period_mode` (src/src/hal/counter.rs lines 83-85). -/
def setSemiPeriodMode (inited : Bool) (native : Int → Int → Unit × Int)
    (highSemiPeriod : Bool) : HalResult Unit × Nat :=
  halCallPtr inited (native (boolToNative highSemiPeriod))

/-- `get_samples_to_average` (src/src/hal/counter.rs lines 91-93). -/
def getSamplesToAverage (inited : Bool) (native : Int → Int × Int) :
    HalResult Int × Nat :=
  halCallPtr inited native

/-- `set_samples_to_average` (src/src/hal/counter.rs lines 95-97). -/
def setSamplesToAverage (inited : Bool) (native : Int → Unit × Int) :
    HalResult Unit × Nat :=
  halCallPtr inited native

/-- `reset` (src/src/hal/counter.rs lines 99-101). -/
def reset (inited : Bool) (native : Int → Unit × Int) : HalResult Unit × Nat :=
  halCallPtr inited native

/-- `get` (src/src/hal/counter.rs lines 103-105). -/
def get (inited : Bool) (native : Int → Int × Int) : HalResult Int × Nat :=
  halCallPtr inited native

/-- `set_update_when_empty` (src/src/hal/counter.rs lines 115-117). -/
def setUpdateWhenEmpty (inited : Bool) (native : Int → Int → Unit × Int)
    (enabled : Bool) : HalResult Unit × Nat :=
  halCallPtr inited (native (boolToNative enabled))

/-- `get_stopped` (src/src/hal/counter.rs lines 119-121):
`hal_call![ptr HAL_GetCounterStopped(handle)].map(|n| n != 0)`. -/
def getStopped (inited : Bool) (native : Int → Int × Int) : HalResult Bool × Nat :=
  let c := halCallPtr inited native
  (c.1.map (fun n => n != 0), c.2)

/-- `get_direction` (src/src/hal/counter.rs lines 123-125):
`hal_call![ptr HAL_GetCounterDirection(handle)].map(|n| n != 0)`. -/
def getDirection (inited : Bool) (native : Int → Int × Int) : HalResult Bool × Nat :=
  let c := halCallPtr inited native
  (c.1.map (fun n => n != 0), c.2)

/-- `set_reverse_direction` (src/src/hal/counter.rs lines 127-129). -/
def setReverseDirection (inited : Bool) (native : Int → Int → Unit × Int)
    (reverseDirection : Bool) : HalResult Unit × Nat :=
  halCallPtr inited (native (boolToNative reverseDirection))

end Counter

namespace Serial

/-- `SerialPort` (src/src/hal/serial.rs lines 11-17 and, identically,
src/src/hal/serial_io.rs lines 76-82). -/
inductive SerialPort where
  | OnBoard
  | MXP
  | USB1
  | USB2
  deriving DecidableEq, Repr, BEq

/-- `initialize_serial_port` (src/src/hal/serial.rs lines 69-71). -/
def serialInitializePort (inited : Bool) (native : Int → Unit × Int) :
    HalResult Unit × Nat :=
  halCallPtr inited native

/-- `set_serial_baud_rate` (src/src/hal/serial.rs lines 73-75). -/
def setSerialBaudRate (inited : Bool) (native : Int → Unit × Int) :
    HalResult Unit × Nat :=
  halCallPtr inited native

/-- `set_serial_data_bits` (src/src/hal/serial.rs lines 77-79). -/
def setSerialDataBits (inited : Bool) (native : Int → Unit × Int) :
    HalResult Unit × Nat :=
  halCallPtr inited native

/-- `set_serial_parity` (src/src/hal/serial.rs lines 82-84). -/
def setSerialParity (inited : Bool) (native : Int → Unit × Int) :
    HalResult Unit × Nat :=
  halCallPtr inited native

/-- `set_serial_stop_bits` (src/src/hal/serial.rs lines 86-88). -/
def setSerialStopBits (inited : Bool) (native : Int → Unit × Int) :
    HalResult Unit × Nat :=
  halCallPtr inited native

/-- `set_serial_write_mode` (src/src/hal/serial.rs lines 91-93). -/
def setSerialWriteMode (inited : Bool) (native : Int → Unit × Int) :
    HalResult Unit × Nat :=
  halCallPtr inited native

/-- `set_serial_flow_control` (src/src/hal/serial.rs lines 96-98). -/
def setSerialFlowControl (inited : Bool) (native : Int → Unit × Int) :
    HalResult Unit × Nat :=
  halCallPtr inited native

/-- `enable_serial_termination` (src/src/hal/serial.rs lines 104-106). -/
def enableSerialTermination (inited : Bool) (native : Int → Unit × Int) :
    HalResult Unit × Nat :=
  halCallPtr inited native

/-- `disable_serial_termination` (src/src/hal/serial.rs lines 108-110). -/
def disableSerialTermination (inited : Bool) (native : Int → Unit × Int) :
    HalResult Unit × Nat :=
  halCallPtr inited native

/-- `set_serial_read_buffer_size` (src/src/hal/serial.rs lines 112-114). -/
def setSerialReadBufferSize (inited : Bool) (native : Int → Unit × Int) :
    HalResult Unit × Nat :=
  halCallPtr inited native

/-- `set_serial_write_buffer_size` (src/src/hal/serial.rs lines 116-118). -/
def setSerialWriteBufferSize (inited : Bool) (native : Int → Unit × Int) :
    HalResult Unit × Nat :=
  halCallPtr inited native

/-- `get_serial_bytes_received` (src/src/hal/serial.rs lines 120-122). -/
def getSerialBytesReceived (inited : Bool) (native : Int → Int × Int) :
    HalResult Int × Nat :=
  halCallPtr inited native

/-- `read_serial` (src/src/hal/serial.rs lines 125-133). -/
def readSerial (inited : Bool) (native : Int → Int × Int) : HalResult Int × Nat :=
  halCallPtr inited native

/-- `write_serial` (src/src/hal/serial.rs lines 135-137). -/
def writeSerial (inited : Bool) (native : Int → Int × Int) : HalResult Int × Nat :=
  halCallPtr inited native

/-- `flush_serial` (src/src/hal/serial.rs lines 139-141). -/
def flushSerial (inited : Bool) (native : Int → Unit × Int) : HalResult Unit × Nat :=
  halCallPtr inited native

/-- `clear_serial` (src/src/hal/serial.rs lines 143-145). -/
def clearSerial (inited : Bool) (native : Int → Unit × Int) : HalResult Unit × Nat :=
  halCallPtr inited native

/-- `close_serial` (src/src/hal/serial.rs lines 147-149). -/
def closeSerial (inited : Bool) (native : Int → Unit × Int) : HalResult Unit × Nat :=
  halCallPtr inited native

end Serial

namespace Notifier

/-- `clean_notifier` (src/src/hal/notifier.rs lines 25-27). -/
def cleanNotifier (inited : Bool) (native : Int → Int → Unit × Int)
    (handle : NotifierHandle) : HalResult Unit × Nat :=
  halCallPtr inited (native handle.getHandle)

/-- `get_notifier_param` (src/src/hal/notifier.rs lines 30-32); the returned
`*mut c_void` is embedded as its address. -/
def getNotifierParam (inited : Bool) (native : Int → Int → Int × Int)
    (handle : NotifierHandle) : HalResult Int × Nat :=
  halCallPtr inited (native handle.getHandle)

/-- `update_notifier_alarm` (src/src/hal/notifier.rs lines 34-36). -/
def updateNotifierAlarm (inited : Bool) (native : Int → Int → Unit × Int)
    (handle : NotifierHandle) : HalResult Unit × Nat :=
  halCallPtr inited (native handle.getHandle)

/-- `stop_notifier_alarm` (src/src/hal/notifier.rs lines 38-40). -/
def stopNotifierAlarm (inited : Bool) (native : Int → Int → Unit × Int)
    (handle : NotifierHandle) : HalResult Unit × Nat :=
  halCallPtr inited (native handle.getHandle)

end Notifier

namespace SerialIo

open Serial (SerialPort)

/-!
The three port registries of src/src/hal/serial_io.rs lines 11-15 (the
serial-port one is duplicated at src/src/hal/serial.rs lines 7-9):
`lazy_static! { static ref ... : Vec<_> = Vec::new(); }`.  They are
immutable references created empty, and no code in the repository pushes to
them, so they are the empty list.
-/

def INITIALIZED_SERIAL_PORTS : List SerialPort := []

def INITIALIZED_SPI_PORTS : List Int := []

def INITIALIZED_I2C_PORTS : List Int := []

/-- `SerialOptions` (src/src/hal/serial_io.rs lines 106-114, default
`read_size = 1`). -/
structure SerialOptions where
  readSize : Int
  deriving DecidableEq, Repr

def serialOptionsDefault : SerialOptions := SerialOptions.mk 1

/-- `SerialDevice` (src/src/hal/serial_io.rs lines 116-119 and
src/src/hal/serial.rs lines 51-54). -/
structure SerialDevice where
  port : SerialPort
  opts : SerialOptions

/-- `SerialDevice::new` (src/src/hal/serial_io.rs lines 121-132 and
src/src/hal/serial.rs lines 56-67): `None` if the port is already in
`INITIALIZED_SERIAL_PORTS`, else `Some` with default options. -/
def serialDeviceNew (port : SerialPort) : Option SerialDevice :=
  if INITIALIZED_SERIAL_PORTS.contains port then none
  else some (SerialDevice.mk port serialOptionsDefault)

/-- `SpiPort` (src/src/hal/serial_io.rs lines 135-155) with its
`get_port` mapping. -/
inductive SpiPort where
  | CS0
  | CS1
  | CS2
  | CS3
  | MXP
  | Unknown (k : Int)
  deriving DecidableEq, Repr

/-- `SpiPort::get_port` (src/src/hal/serial_io.rs lines 146-155). -/
def SpiPort.getPort : SpiPort → Int
  | SpiPort.CS0 => 0
  | SpiPort.CS1 => 1
  | SpiPort.CS2 => 2
  | SpiPort.CS3 => 3
  | SpiPort.MXP => 4
  | SpiPort.Unknown k => k

/-- `SpiOptions` (src/src/hal/serial_io.rs lines 172-182, default
`read_size = 1`). -/
structure SpiOptions where
  readSize : Int
  deriving DecidableEq, Repr

def spiOptionsDefault : SpiOptions := SpiOptions.mk 1

/-- `HalSpi` (src/src/hal/serial_io.rs lines 185-190). -/
structure HalSpi where
  port : Int
  opts : SpiOptions
  deriving DecidableEq, Repr

/-- `HalSpi::new` (src/src/hal/serial_io.rs lines 192-205):
`Err(ResourceAlreadyInitialized)` if the port number is in
`INITIALIZED_SPI_PORTS`, otherwise `spi::initialize_spi(port.get_port())?`
then `Ok`.  The `spi` module is not under src/, so the result of
`spi::initialize_spi` is a parameter. -/
def halSpiNew (port : SpiPort) (spiInitResult : Int → HalResult Unit) :
    HalResult HalSpi :=
  if INITIALIZED_SPI_PORTS.contains port.getPort then
    Except.error HalError.ResourceAlreadyInitialized
  else
    (spiInitResult port.getPort).map (fun _ => HalSpi.mk port.getPort spiOptionsDefault)

/-- Modelled from the spec: `spi::initialize_spi` is code of this repository
that is not under src/; per the spec (sections 4.3 and 4.5) every peripheral
operation is built on the Call Wrapper, so its result is the first component
of a `hal_call!` ptr-shape call. -/
def spiInitializeSpec (inited : Bool) (native : Int → Unit × Int) : HalResult Unit :=
  (halCallPtr inited native).1

/-- `HalSpi::hal_read` of `impl HalSerialIO for HalSpi`
(src/src/hal/serial_io.rs lines 247-249): `Ok(spi::read_spi(self.port, buf,
self.opts.read_size))` — the native read is invoked unconditionally and its
count is returned as an unconditional success. -/
def halSpiHalRead (inited : Bool) (readSpi : Int) : HalResult Int × Nat :=
  (Except.ok readSpi, 1)

/-- `HalSpi::hal_write` of `impl HalSerialIO for HalSpi`
(src/src/hal/serial_io.rs lines 251-253): `Ok(spi::write_spi(self.port, buf,
buf.len() as i32))`. -/
def halSpiHalWrite (inited : Bool) (writeSpi : Int) : HalResult Int × Nat :=
  (Except.ok writeSpi, 1)

/-- `I2cPort` (src/src/hal/serial_io.rs lines 263-276) with its `get_port`
mapping. -/
inductive I2cPort where
  | OnBoard
  | MXP
  deriving DecidableEq, Repr

/-- `I2cPort::get_port` (src/src/hal/serial_io.rs lines 270-275). -/
def I2cPort.getPort : I2cPort → Int
  | I2cPort.OnBoard => 0
  | I2cPort.MXP => 1

/-- `I2cOptions` (src/src/hal/serial_io.rs lines 279-289, default
`read_size = 1`). -/
structure I2cOptions where
  readSize : Int
  deriving DecidableEq, Repr

def i2cOptionsDefault : I2cOptions := I2cOptions.mk 1

/-- `I2C` (src/src/hal/serial_io.rs lines 292-299). -/
structure I2c where
  port : Int
  address : Int
  opts : I2cOptions
  deriving DecidableEq, Repr

/-- `I2C::new_with_opts` (src/src/hal/serial_io.rs lines 308-320): `None`
if the port number is in `INITIALIZED_I2C_PORTS`, otherwise it calls
`i2c::initialize_i2c(port.get_port())` purely for its side effect (that
native call reports no status and its result is discarded) and returns
`Some`. -/
def i2cNewWithOpts (port : I2cPort) (address : Int) (opts : I2cOptions) :
    Option I2c :=
  if INITIALIZED_I2C_PORTS.contains port.getPort then none
  else some (I2c.mk port.getPort address opts)

/-- `I2C::new` (src/src/hal/serial_io.rs lines 303-305). -/
def i2cNew (port : I2cPort) (address : Int) : Option I2c :=
  i2cNewWithOpts port address i2cOptionsDefault

/-- `I2C::hal_read` of `impl HalSerialIO for I2C`
(src/src/hal/serial_io.rs lines 339-341): `Ok(i2c::read_i2c(...))`. -/
def i2cHalRead (inited : Bool) (readI2c : Int) : HalResult Int × Nat :=
  (Except.ok readI2c, 1)

/-- `I2C::hal_write` of `impl HalSerialIO for I2C`
(src/src/hal/serial_io.rs lines 343-345): `Ok(i2c::write_i2c(...))`. -/
def i2cHalWrite (inited : Bool) (writeI2c : Int) : HalResult Int × Nat :=
  (Except.ok writeI2c, 1)

end SerialIo

/-!  Theorems.  Helper lemmas first, then one theorem per claim. -/

theorem tableLookup_absent (t : List (Int × FfiError)) (code : Int)
    (h : ∀ p ∈ t, p.1 ≠ code) : tableLookup t code = FfiError.Unknown code := by
  induction t with
  | nil => rfl
  | cons p rest ih =>
    have hp : p.1 ≠ code := h p (List.mem_cons_self p rest)
    simp only [tableLookup]
    rw [if_neg (fun hc => hp hc.symm)]
    exact ih (fun q hq => h q (List.mem_cons_of_mem p hq))

theorem halErrorFromI32_eq_tableLookup (code : Int) :
    halErrorFromI32 code =
      HalError.Hal (if 0 ≤ code then tableLookup positiveTable code
                    else tableLookup negativeTable code) := by
  by_cases h : 0 ≤ code
  · simp only [halErrorFromI32, positiveTable, negativeTable, tableLookup, if_pos h]
  · simp only [halErrorFromI32, positiveTable, negativeTable, tableLookup, if_neg h]

theorem tableLookup_mem_or_unknown (t : List (Int × FfiError)) (code : Int) :
    (code, tableLookup t code) ∈ t ∨ tableLookup t code = FfiError.Unknown code := by
  induction t with
  | nil => exact Or.inr rfl
  | cons p rest ih =>
    obtain ⟨k, e⟩ := p
    by_cases h : code = k
    · subst h
      simp only [tableLookup, if_pos rfl]
      exact Or.inl (List.mem_cons_self _ _)
    · simp only [tableLookup, if_neg h]
      rcases ih with hm | hu
      · exact Or.inl (List.mem_cons_of_mem _ hm)
      · exact Or.inr hu

theorem halErrorFromI32_ne_resourceAlreadyInitialized (code : Int) :
    halErrorFromI32 code ≠ HalError.ResourceAlreadyInitialized := by
  unfold halErrorFromI32
  intro h
  exact HalError.noConfusion h

/-- C1: for every non-zero i32 status code, `From<i32> for HalError`
dispatches on sign alone: the translation equals a lookup in the table
selected by the code's sign (so a numerically-equal key of the other-sign
table can never match, as the result depends only on the selected table),
and a code absent from the selected table maps to `Unknown(code)` with the
original integer preserved. -/
theorem c1_statusTranslationSignDispatch (code : Int) (hnz : code ≠ 0)
    (hrange : -2147483648 ≤ code ∧ code < 2147483648) :
    halErrorFromI32 code =
      HalError.Hal (if 0 ≤ code then tableLookup positiveTable code
                    else tableLookup negativeTable code) ∧
    (0 ≤ code → (∀ p ∈ positiveTable, p.1 ≠ code) →
      halErrorFromI32 code = HalError.Hal (FfiError.Unknown code)) ∧
    (code < 0 → (∀ p ∈ negativeTable, p.1 ≠ code) →
      halErrorFromI32 code = HalError.Hal (FfiError.Unknown code)) := by
  refine ⟨halErrorFromI32_eq_tableLookup code, ?_, ?_⟩
  · intro hpos habs
    rw [halErrorFromI32_eq_tableLookup code, if_pos hpos,
      tableLookup_absent _ _ habs]
  · intro hneg habs
    rw [halErrorFromI32_eq_tableLookup code, if_neg (not_le.mpr hneg),
      tableLookup_absent _ _ habs]

theorem c1_witness :
    (((-9999 : Int) ≠ 0) ∧ (-2147483648 ≤ (-9999 : Int) ∧ (-9999 : Int) < 2147483648)) ∧
    (halErrorFromI32 (-9999) =
        HalError.Hal (if 0 ≤ (-9999 : Int) then tableLookup positiveTable (-9999)
                      else tableLookup negativeTable (-9999)) ∧
      (0 ≤ (-9999 : Int) → (∀ p ∈ positiveTable, p.1 ≠ (-9999 : Int)) →
        halErrorFromI32 (-9999) = HalError.Hal (FfiError.Unknown (-9999))) ∧
      ((-9999 : Int) < 0 → (∀ p ∈ negativeTable, p.1 ≠ (-9999 : Int)) →
        halErrorFromI32 (-9999) = HalError.Hal (FfiError.Unknown (-9999)))) :=
  ⟨⟨by decide, by decide⟩,
    c1_statusTranslationSignDispatch (-9999) (by decide) ⟨by decide, by decide⟩⟩

/-- C9: the status-code translation is a total function returning a
`HalError.Hal` value for every integer code, including zero, for which it
yields `Hal (Unknown 0)` rather than a success; the zero-means-success
short-circuit lives only in the Call Wrapper, whose `ptr` shape succeeds
with the untranslated native value when the status slot stays zero. -/
theorem c9_translationTotalAlwaysHal :
    (∀ code : Int, ∃ e : FfiError, halErrorFromI32 code = HalError.Hal e) ∧
    halErrorFromI32 0 = HalError.Hal (FfiError.Unknown 0) ∧
    (∀ v : Int, (halCallPtr true (fun _ => (v, 0))).1 = Except.ok v) :=
  ⟨fun _ => ⟨_, rfl⟩, by decide, fun _ => rfl⟩

/-- C2: with the process-wide initialization flag false, both shapes of the
Call Wrapper fail with `HalNotInitialized` and the native function is
invoked zero times; in particular the counter `reset` operation cited by the
spec behaves this way. -/
theorem c2_uninitializedFailsWithoutNativeCall :
    (∀ (α : Type) (native : Int → α × Int),
        halCallPtr false native = (Except.error HalError.HalNotInitialized, 0)) ∧
    (∀ status : Int,
        halCallRet false status = (Except.error HalError.HalNotInitialized, 0)) ∧
    (∀ native : Int → Unit × Int,
        Counter.reset false native = (Except.error HalError.HalNotInitialized, 0)) :=
  ⟨fun _ _ => rfl, fun _ => rfl, fun _ => rfl⟩

/-- C3: with the flag true, a wrapped call succeeds iff the status produced
by the native function is zero; the `ptr` shape then yields the native
return value unchanged and the `ret` shape yields unit, and every non-zero
status fails with exactly the translation of that status code. -/
theorem c3_statusZeroIffSuccess {α : Type} (native : Int → α × Int) (v : α)
    (s : Int) (h : native 0 = (v, s)) :
    ((halCallPtr true native).1 = Except.ok v ↔ s = 0) ∧
    (s ≠ 0 → (halCallPtr true native).1 = Except.error (halErrorFromI32 s)) ∧
    ((halCallRet true s).1 =
      if s = 0 then Except.ok () else Except.error (halErrorFromI32 s)) := by
  refine ⟨?_, ?_, ?_⟩
  · constructor
    · intro hok
      by_contra hs
      simp [halCallPtr, h, hs] at hok
    · intro hs
      simp [halCallPtr, h, hs]
  · intro hs
    simp [halCallPtr, h, hs]
  · simp [halCallRet]

theorem c3_witness :
    ((fun _ : Int => ((42 : Int), (0 : Int))) 0 = ((42 : Int), (0 : Int))) ∧
    (((halCallPtr true (fun _ : Int => ((42 : Int), (0 : Int)))).1 =
        Except.ok (42 : Int) ↔ (0 : Int) = 0) ∧
      ((0 : Int) ≠ 0 → (halCallPtr true (fun _ : Int => ((42 : Int), (0 : Int)))).1 =
        Except.error (halErrorFromI32 0)) ∧
      ((halCallRet true 0).1 =
        if (0 : Int) = 0 then Except.ok () else Except.error (halErrorFromI32 0))) :=
  ⟨rfl, c3_statusZeroIffSuccess (fun _ => ((42 : Int), (0 : Int))) 42 0 rfl⟩

/-- C4 counterexample: not every public peripheral operation applies the
Call Wrapper.  With the initialization flag false, `free_relay_port` still
invokes the native function (one invocation instead of the pattern's zero),
and `HalSpi::hal_read` reports success instead of failing with
`HalNotInitialized` — so the claim is false at these concrete inputs. -/
theorem c4_counterexample :
    Relay.freeRelayPort false (fun _ => ()) (RelayHandle.mk 3) = ((), 1) ∧
    SerialIo.halSpiHalRead false 5 = (Except.ok 5, 1) ∧
    SerialIo.halSpiHalRead false 5 ≠
      (Except.error HalError.HalNotInitialized, 0) := by
  refine ⟨rfl, rfl, ?_⟩
  simp [SerialIo.halSpiHalRead]

/-- C4 amended: the peripheral operations built on `hal_call!` apply the
Call Wrapper — when the flag is false each fails with `HalNotInitialized`
with zero native invocations — but the public operations not built on it do
not: `free_relay_port` and `check_relay_channel` invoke the native function
unconditionally with no initialization or status check, and the
`HalSerialIO` read/write implementations for `HalSpi` and `I2C` invoke the
native transfer unconditionally and report unconditional success. -/
theorem c4_amended_wrapperCoverage :
    (∀ (nat1 : Int → Int → Int → Int × Int) (p : Int) (fwd : Bool),
      Relay.halInitializeRelayPort false nat1 p fwd =
        (Except.error HalError.HalNotInitialized, 0)) ∧
    (∀ (nat2 : Int → Int → Int → Unit × Int) (h : RelayHandle) (b : Bool),
      Relay.setRelay false nat2 h b = (Except.error HalError.HalNotInitialized, 0)) ∧
    (∀ (nat3 : Int → Int → Int × Int) (h : RelayHandle),
      Relay.getRelay false nat3 h = (Except.error HalError.HalNotInitialized, 0)) ∧
    (∀ (nat4 : Counter.CounterMode → Int → CounterHandle × Int) (m : Counter.CounterMode),
      Counter.counterInitialize false nat4 m = (Except.error HalError.HalNotInitialized, 0)) ∧
    (∀ nat5 : Int → Unit × Int,
      Counter.freeCounter false nat5 = (Except.error HalError.HalNotInitialized, 0)) ∧
    (∀ nat6 : Int → Unit × Int,
      Counter.reset false nat6 = (Except.error HalError.HalNotInitialized, 0)) ∧
    (∀ nat7 : Int → Int × Int,
      Counter.get false nat7 = (Except.error HalError.HalNotInitialized, 0)) ∧
    (∀ nat8 : Int → Int × Int,
      Counter.getStopped false nat8 = (Except.error HalError.HalNotInitialized, 0)) ∧
    (∀ nat9 : Int → Int × Int,
      Counter.getDirection false nat9 = (Except.error HalError.HalNotInitialized, 0)) ∧
    (∀ nat10 : Int → Unit × Int,
      Counter.setAverageSize false nat10 = (Except.error HalError.HalNotInitialized, 0)) ∧
    (∀ (nat11 : Int → Int → Int → Unit × Int) (r f : Bool),
      Counter.setUpSourceEdge false nat11 r f = (Except.error HalError.HalNotInitialized, 0)) ∧
    (∀ nat12 : Int → Unit × Int,
      Serial.serialInitializePort false nat12 = (Except.error HalError.HalNotInitialized, 0)) ∧
    (∀ nat13 : Int → Int × Int,
      Serial.readSerial false nat13 = (Except.error HalError.HalNotInitialized, 0)) ∧
    (∀ nat14 : Int → Int × Int,
      Serial.writeSerial false nat14 = (Except.error HalError.HalNotInitialized, 0)) ∧
    (∀ nat15 : Int → Unit × Int,
      Serial.flushSerial false nat15 = (Except.error HalError.HalNotInitialized, 0)) ∧
    (∀ nat16 : Int → Unit × Int,
      Serial.closeSerial false nat16 = (Except.error HalError.HalNotInitialized, 0)) ∧
    (∀ (nat17 : Int → Int → Unit × Int) (h : NotifierHandle),
      Notifier.cleanNotifier false nat17 h = (Except.error HalError.HalNotInitialized, 0)) ∧
    (∀ (nat18 : Int → Int → Unit × Int) (h : NotifierHandle),
      Notifier.updateNotifierAlarm false nat18 h = (Except.error HalError.HalNotInitialized, 0)) ∧
    (∀ (nat19 : Int → Int → Unit × Int) (h : NotifierHandle),
      Notifier.stopNotifierAlarm false nat19 h = (Except.error HalError.HalNotInitialized, 0)) ∧
    (∀ (inited : Bool) (native : Int → Unit) (h : RelayHandle),
      Relay.freeRelayPort inited native h = (native h.getHandle, 1)) ∧
    (∀ (inited : Bool) (native : Int → Int) (c : Int),
      Relay.checkRelayChannel inited native c = (native c != 0, 1)) ∧
    (∀ (inited : Bool) (n : Int),
      SerialIo.halSpiHalRead inited n = (Except.ok n, 1)) ∧
    (∀ (inited : Bool) (n : Int),
      SerialIo.halSpiHalWrite inited n = (Except.ok n, 1)) ∧
    (∀ (inited : Bool) (n : Int),
      SerialIo.i2cHalRead inited n = (Except.ok n, 1)) ∧
    (∀ (inited : Bool) (n : Int),
      SerialIo.i2cHalWrite inited n = (Except.ok n, 1)) :=
  ⟨fun _ _ _ => rfl, fun _ _ _ => rfl, fun _ _ => rfl, fun _ _ => rfl,
    fun _ => rfl, fun _ => rfl, fun _ => rfl, fun _ => rfl, fun _ => rfl,
    fun _ => rfl, fun _ _ _ => rfl, fun _ => rfl, fun _ => rfl, fun _ => rfl,
    fun _ => rfl, fun _ => rfl, fun _ _ => rfl, fun _ _ => rfl, fun _ _ => rfl,
    fun _ _ _ => rfl, fun _ _ _ => rfl, fun _ _ => rfl, fun _ _ => rfl,
    fun _ _ => rfl, fun _ _ => rfl⟩

/-- C6 counterexample: the claim that no i32 input produces
`ThreadPriorityError` or `ThreadPriorityRangeError` is false — the
negative-code table (src/src/error.rs lines 189-190) maps the codes
`HAL_THREAD_PRIORITY_ERROR` and `HAL_THREAD_PRIORITY_RANGE_ERROR` to
exactly these variants. -/
theorem c6_counterexample :
    halErrorFromI32 (-1152) = HalError.Hal FfiError.ThreadPriorityError ∧
    halErrorFromI32 (-1153) = HalError.Hal FfiError.ThreadPriorityRangeError := by
  constructor <;> decide

/-- C6 amended: `ThreadPriorityError` and `ThreadPriorityRangeError` are
produced by the status-code translation — each from exactly one code of the
negative-code table — but, unlike every other recognised variant, their
display text is the fixed local placeholder literal of src/src/error.rs
lines 94-95 rather than a vendor-provided message. -/
theorem c6_amended_threadPriorityVariants :
    halErrorFromI32 HAL_THREAD_PRIORITY_ERROR =
      HalError.Hal FfiError.ThreadPriorityError ∧
    halErrorFromI32 HAL_THREAD_PRIORITY_RANGE_ERROR =
      HalError.Hal FfiError.ThreadPriorityRangeError ∧
    (∀ code : Int, halErrorFromI32 code = HalError.Hal FfiError.ThreadPriorityError →
      code = HAL_THREAD_PRIORITY_ERROR) ∧
    (∀ code : Int, halErrorFromI32 code = HalError.Hal FfiError.ThreadPriorityRangeError →
      code = HAL_THREAD_PRIORITY_RANGE_ERROR) ∧
    (∀ m : VendorMessages,
      FfiError.displayMessage m FfiError.ThreadPriorityError =
        "\x7bThreadPriorityError\x7d" ∧
      FfiError.displayMessage m FfiError.ThreadPriorityRangeError =
        "\x7bThreadPriorityRangeError\x7d") := by
  refine ⟨by decide, by decide, ?_, ?_, fun m => ⟨rfl, rfl⟩⟩
  · intro code hEq
    rw [halErrorFromI32_eq_tableLookup, HalError.Hal.injEq] at hEq
    by_cases hsign : 0 ≤ code
    · rw [if_pos hsign] at hEq
      rcases tableLookup_mem_or_unknown positiveTable code with hm | hu
      · rw [hEq] at hm
        simp [positiveTable, Prod.mk.injEq] at hm
      · rw [hEq] at hu
        exact FfiError.noConfusion hu
    · rw [if_neg hsign] at hEq
      rcases tableLookup_mem_or_unknown negativeTable code with hm | hu
      · rw [hEq] at hm
        simp [negativeTable, Prod.mk.injEq] at hm
        exact hm
      · rw [hEq] at hu
        exact FfiError.noConfusion hu
  · intro code hEq
    rw [halErrorFromI32_eq_tableLookup, HalError.Hal.injEq] at hEq
    by_cases hsign : 0 ≤ code
    · rw [if_pos hsign] at hEq
      rcases tableLookup_mem_or_unknown positiveTable code with hm | hu
      · rw [hEq] at hm
        simp [positiveTable, Prod.mk.injEq] at hm
      · rw [hEq] at hu
        exact FfiError.noConfusion hu
    · rw [if_neg hsign] at hEq
      rcases tableLookup_mem_or_unknown negativeTable code with hm | hu
      · rw [hEq] at hm
        simp [negativeTable, Prod.mk.injEq] at hm
        exact hm
      · rw [hEq] at hu
        exact FfiError.noConfusion hu

/-- C7 counterexample: the claim that in both call shapes the native
function receives a zero-initialized status slot by reference, with success
determined by the slot staying zero, is false for the `ret` shape: there the
status is the native function's own return value.  A `ret`-shape call whose
native function returns 7 fails with the translation of 7, while the
spec-modelled slot-based reading of the no-value shape succeeds for a native
function that leaves its slot untouched. -/
theorem c7_counterexample :
    (halCallRet true 7).1 = Except.error (HalError.Hal (FfiError.Unknown 7)) ∧
    halCallNoValSlotSpec true (fun slot => ((), slot)) = (Except.ok (), 1) := by
  exact ⟨rfl, rfl⟩

/-- C7 amended: the `ptr` shape invokes the native function with a
zero-initialized status slot and succeeds iff the slot is still zero on
return, yielding the native value; the `ret` shape passes no slot — the
native function's own integer return value is the status — and succeeds iff
that return value is zero, yielding unit. -/
theorem c7_amended_statusMechanism :
    (∀ (α : Type) (native : Int → α × Int),
      (halCallPtr true native).1 =
        if (native 0).2 = 0 then Except.ok (native 0).1
        else Except.error (halErrorFromI32 (native 0).2)) ∧
    (∀ (α : Type) (native : Int → α × Int),
      ((native 0).2 = 0 ↔ ∃ w, (halCallPtr true native).1 = Except.ok w)) ∧
    (∀ status : Int,
      (halCallRet true status).1 =
        if status = 0 then Except.ok () else Except.error (halErrorFromI32 status)) := by
  refine ⟨fun α native => rfl, fun α native => ?_, fun status => rfl⟩
  constructor
  · intro hs
    exact ⟨(native 0).1, by simp [halCallPtr, hs]⟩
  · rintro ⟨w, hw⟩
    by_contra hs
    simp [halCallPtr, hs] at hw

/-- C8: booleans cross the native boundary as small integers with nonzero
meaning true: `get_relay`, `get_stopped` and `get_direction` succeed with
`true` exactly when the native integer is nonzero, and a boolean argument is
passed to the native function as 1 for `true` and 0 for `false`
(`set_relay`). -/
theorem c8_booleanBoundary (v : Int) (h : RelayHandle)
    (nativeR : Int → Int → Int × Int) (nativeC : Int → Int × Int)
    (hR : nativeR h.getHandle 0 = (v, 0)) (hC : nativeC 0 = (v, 0)) :
    boolToNative true = 1 ∧ boolToNative false = 0 ∧
    ((Relay.getRelay true nativeR h).1 = Except.ok true ↔ v ≠ 0) ∧
    ((Counter.getStopped true nativeC).1 = Except.ok true ↔ v ≠ 0) ∧
    ((Counter.getDirection true nativeC).1 = Except.ok true ↔ v ≠ 0) ∧
    (∀ (nativeS : Int → Int → Int → Unit × Int) (onValue : Bool),
      Relay.setRelay true nativeS h onValue =
        halCallPtr true (nativeS h.getHandle (if onValue then 1 else 0))) := by
  refine ⟨rfl, rfl, ?_, ?_, ?_, fun nativeS onValue => rfl⟩
  · simp [Relay.getRelay, halCallPtr, hR, Except.map, bne_iff_ne]
  · simp [Counter.getStopped, halCallPtr, hC, Except.map, bne_iff_ne]
  · simp [Counter.getDirection, halCallPtr, hC, Except.map, bne_iff_ne]

theorem c8_witness :
    ((fun _ _ : Int => ((3 : Int), (0 : Int))) (RelayHandle.mk 1).getHandle 0 =
        ((3 : Int), (0 : Int)) ∧
      (fun _ : Int => ((3 : Int), (0 : Int))) 0 = ((3 : Int), (0 : Int))) ∧
    (boolToNative true = 1 ∧ boolToNative false = 0 ∧
      ((Relay.getRelay true (fun _ _ => ((3 : Int), (0 : Int))) (RelayHandle.mk 1)).1 =
          Except.ok true ↔ (3 : Int) ≠ 0) ∧
      ((Counter.getStopped true (fun _ => ((3 : Int), (0 : Int)))).1 =
          Except.ok true ↔ (3 : Int) ≠ 0) ∧
      ((Counter.getDirection true (fun _ => ((3 : Int), (0 : Int)))).1 =
          Except.ok true ↔ (3 : Int) ≠ 0) ∧
      (∀ (nativeS : Int → Int → Int → Unit × Int) (onValue : Bool),
        Relay.setRelay true nativeS (RelayHandle.mk 1) onValue =
          halCallPtr true (nativeS (RelayHandle.mk 1).getHandle
            (if onValue then 1 else 0)))) :=
  ⟨⟨rfl, rfl⟩,
    c8_booleanBoundary 3 (RelayHandle.mk 1) (fun _ _ => ((3 : Int), (0 : Int)))
      (fun _ => ((3 : Int), (0 : Int))) rfl rfl⟩

/-- C10: the three initialized-port registries are created empty and no
operation adds to them, so the already-initialized guards never fire:
`SerialDevice::new` returns `Some` for every port, `HalSpi::new` never
returns `Err(ResourceAlreadyInitialized)` (its only error source is the
Call-Wrapper result of `spi::initialize_spi`, which produces only
`HalNotInitialized` or `Hal` errors), and `I2C::new_with_opts` never
returns `None`. -/
theorem c10_registryGuardsNeverFire :
    SerialIo.INITIALIZED_SERIAL_PORTS = [] ∧
    SerialIo.INITIALIZED_SPI_PORTS = [] ∧
    SerialIo.INITIALIZED_I2C_PORTS = [] ∧
    (∀ port : Serial.SerialPort, (SerialIo.serialDeviceNew port).isSome = true) ∧
    (∀ (port : SerialIo.SpiPort) (inited : Bool) (native : Int → Unit × Int),
      SerialIo.halSpiNew port (fun _ => SerialIo.spiInitializeSpec inited native) ≠
        Except.error HalError.ResourceAlreadyInitialized) ∧
    (∀ (port : SerialIo.I2cPort) (address : Int) (opts : SerialIo.I2cOptions),
      (SerialIo.i2cNewWithOpts port address opts).isSome = true) := by
  refine ⟨rfl, rfl, rfl, fun port => rfl, ?_, fun port address opts => rfl⟩
  intro port inited native h
  cases inited with
  | false =>
    rw [show SerialIo.halSpiNew port (fun _ => SerialIo.spiInitializeSpec false native) =
        Except.error HalError.HalNotInitialized from rfl] at h
    exact HalError.noConfusion (Except.error.inj h)
  | true =>
    by_cases hs : (native 0).2 = 0
    · simp [SerialIo.halSpiNew, SerialIo.INITIALIZED_SPI_PORTS,
        SerialIo.spiInitializeSpec, halCallPtr, hs, Except.map] at h
    · simp [SerialIo.halSpiNew, SerialIo.INITIALIZED_SPI_PORTS,
        SerialIo.spiInitializeSpec, halCallPtr, hs, Except.map] at h
      exact halErrorFromI32_ne_resourceAlreadyInitialized _ h

end WpilibSys
